import Mathlib

/-
Verification of the Eko-Kampüs mobile client (TypeScript/React Native) against
its natural-language specification.  The relevant program fragments are given a
shallow embedding below:

* AsyncStorage under the single key userToken is an `Option String`
  (`none` = no value stored, mirroring getItem returning null).
* The AuthProvider component state (userToken : string | null,
  isLoading : boolean) is `AuthState`; the whole system state (persistent
  store + in-memory context) is `SysState`.
* The axios request interceptor (src/unnamed/part_001 lines 42-48 and
  src/unnamed/part_002 lines 8-14, both identical) is `interceptRequest`;
  JavaScript truthiness of a string-or-null value is `truthyStr`
  (null and the empty string are falsy).
* login / logout / the initial useEffect of AuthProvider
  (src/unnamed/part_002 lines 32-50) are `login`, `logout`, `initSession`;
  `loginRun` is the same login with the AsyncStorage.setItem call allowed
  to fail (the await then throws before setUserToken runs).
* Screen-level submission handlers are modelled as pure functions from the
  component state (the useState hooks) to an outcome describing whether a
  network call is issued, together with the end component state.
  Floating-point formatting of map coordinates (toFixed) is not modelled:
  coordinates are carried through as exact rationals, which is faithful to
  every property stated here (none depends on decimal rounding).
-/

namespace EkoKampus

/-- JavaScript truthiness of a string-or-null value: null and "" are falsy. -/
def truthyStr : Option String → Bool
  | none => false
  | some s => s != ""

/-- JavaScript template interpolation of a string-or-null value:
null interpolates as the literal text "null". -/
def jsTemplateToken : Option String → String
  | none => "null"
  | some s => s

/-- JavaScript String.prototype.trim: strip leading and trailing whitespace.
Modelled on the character list (JavaScript strips the Unicode whitespace
class; the properties below only ever trim ASCII spaces). -/
def jsTrim (s : String) : String :=
  String.mk
    (((s.data.dropWhile Char.isWhitespace).reverse.dropWhile
        Char.isWhitespace).reverse)

/-- JavaScript String.prototype.toLowerCase, modelled as character-wise ASCII
lowercasing (the inputs in the properties below are ASCII). -/
def jsToLower (s : String) : String :=
  String.mk (s.data.map Char.toLower)

/-- AsyncStorage.getItem(TOKEN_KEY) on the store contents. -/
def getItem (store : Option String) : Option String := store

/-- AsyncStorage.setItem(TOKEN_KEY, t). -/
def setItem (t : String) (_store : Option String) : Option String := some t

/-- AsyncStorage.removeItem(TOKEN_KEY). -/
def removeItem (_store : Option String) : Option String := none

/-- In-memory state of AuthProvider: the two useState hooks
(userToken : string | null, isLoading : boolean). -/
structure AuthState where
  userToken : Option String
  isLoading : Bool
deriving DecidableEq, Repr

/-- Whole-system state: persisted AsyncStorage contents plus the in-memory
AuthProvider state. -/
structure SysState where
  store : Option String
  auth : AuthState
deriving DecidableEq, Repr

/-- The three-valued session state the spec says consumers observe. -/
inductive SessionView where
  | loading
  | authenticated (token : String)
  | unauthenticated
deriving DecidableEq, Repr

/-- How consumers classify the exposed AuthContextData: isLoading first,
then a null-check on userToken (a non-null token, even "", counts as
authenticated, since JavaScript consumers compare against null). -/
def sessionView (a : AuthState) : SessionView :=
  if a.isLoading then SessionView.loading
  else
    match a.userToken with
    | some t => SessionView.authenticated t
    | none => SessionView.unauthenticated

/-- The AuthProvider useEffect: getItem(TOKEN_KEY).then(setUserToken)
.finally(setIsLoading(false)). -/
def initSession (s : SysState) : SysState :=
  { s with auth := { userToken := getItem s.store, isLoading := false } }

/-- login(token): await AsyncStorage.setItem(TOKEN_KEY, token);
setUserToken(token).  Success path. -/
def login (t : String) (s : SysState) : SysState :=
  { store := setItem t s.store, auth := { s.auth with userToken := some t } }

/-- logout(): await AsyncStorage.removeItem(TOKEN_KEY); setUserToken(null). -/
def logout (s : SysState) : SysState :=
  { store := removeItem s.store, auth := { s.auth with userToken := none } }

/-- login with the persistence step allowed to fail: when setItem fails the
awaited promise rejects, the exception propagates out of login before
setUserToken runs, so neither the store nor the in-memory state changes. -/
def loginRun (setItemOk : Bool) (t : String) (s : SysState) :
    Except SysState SysState :=
  if setItemOk then Except.ok (login t s) else Except.error s

/-- The operations that drive the session lifecycle. -/
inductive Op where
  | init
  | login (token : String)
  | logout
deriving DecidableEq, Repr

/-- Apply one completed operation. -/
def applyOp (s : SysState) : Op → SysState
  | Op.init => initSession s
  | Op.login t => login t s
  | Op.logout => logout s

/-- Run a sequence of completed operations. -/
def runOps (ops : List Op) (s : SysState) : SysState := ops.foldl applyOp s

/-- Process start: AsyncStorage may hold a token persisted by a previous run;
the useState hooks start as (null, true). -/
def startState (persisted : Option String) : SysState :=
  { store := persisted, auth := { userToken := none, isLoading := true } }

/-- States reachable by completed init/login/logout operations from some
process start. -/
def Reachable (s : SysState) : Prop :=
  ∃ persisted ops, s = runOps ops (startState persisted)

/-- The in-memory cached token agrees with the persisted one. -/
def consistentState (s : SysState) : Prop := s.store = s.auth.userToken

/-- The axios request interceptor: reads the token from AsyncStorage (not from
the React context) and, when the value is truthy, overwrites the Authorization
header of the outgoing config; otherwise the config is forwarded unchanged.
The argument a0 is the Authorization header the call site put in the config,
the result is the header on the wire. -/
def interceptRequest (store : Option String) (a0 : Option String) :
    Option String :=
  match getItem store with
  | some token => if token != "" then some ("Bearer " ++ token) else a0
  | none => a0

/-- Outcome of a screen submit handler: either a local validation alert (no
network call) or a single network call with the given body. -/
inductive SubmitOutcome (α : Type) where
  | validationError (message : String)
  | networkCall (payload : α)
deriving DecidableEq, Repr

/-- Body of POST reports/create/ built by HomeScreen.submitReport
(src/unnamed/part_000 lines 80-88). -/
structure WasteReportPayload where
  bin : String
  waste_category : String
  verification_method : String
  latitude : String
  longitude : String
  client_timestamp : String
  photo_base64 : Option String
deriving DecidableEq, Repr

/-- HomeScreen component state (its useState hooks). -/
structure HomeState where
  binId : String
  wasteCategory : String
  imageUri : Option String
  imageBase64 : Option String
  loading : Bool
deriving DecidableEq, Repr

/-- The request body HomeScreen.submitReport sends; now is the value of
new Date().toISOString() at the time of the call. -/
def homePayload (s : HomeState) (now : String) : WasteReportPayload :=
  { bin := jsTrim s.binId
    waste_category := s.wasteCategory
    verification_method := "QR"
    latitude := "36.8969"
    longitude := "30.6553"
    client_timestamp := now
    photo_base64 := s.imageBase64 }

/-- HomeScreen.submitReport up to the network call: an empty (after trim) bin
identifier is rejected with an Alert before any network traffic. -/
def homeSubmitAction (s : HomeState) (now : String) :
    SubmitOutcome WasteReportPayload :=
  if jsTrim s.binId = "" then
    SubmitOutcome.validationError "Lütfen kutu ID girin."
  else
    SubmitOutcome.networkCall (homePayload s now)

/-- HomeScreen.submitReport including its effect on the component state,
parametrised by whether the API call succeeds.  Returns the end state and the
body of the network call, if one was issued.  On success the handler clears
binId, imageUri and imageBase64; the catch branch only shows an Alert; the
finally branch resets loading. -/
def homeSubmit (apiOk : Bool) (now : String) (s : HomeState) :
    HomeState × Option WasteReportPayload :=
  match homeSubmitAction s now with
  | SubmitOutcome.validationError _ => (s, none)
  | SubmitOutcome.networkCall p =>
      if apiOk then
        ({ s with binId := "", imageUri := none, imageBase64 := none,
                  loading := false }, some p)
      else
        ({ s with loading := false }, some p)

/-- A map coordinate (the Coordinate interface of DetectiveScreen).  The
on-device values are IEEE doubles; they are carried here as exact rationals,
and the toFixed(6) decimal formatting applied when serialising is elided —
no property below depends on it. -/
structure Coordinate where
  latitude : Rat
  longitude : Rat
deriving DecidableEq, Repr

/-- Body of POST detective/reports/ built by DetectiveScreen.submitReport
(src/mobile/src/screens/LoginScreen.tsx lines 536-542). -/
structure DetectiveReportPayload where
  latitude : Rat
  longitude : Rat
  description : String
  problem_type : String
  photo_base64 : String
deriving DecidableEq, Repr

/-- DetectiveScreen component state (the useState hooks that matter to the
submit flow). -/
structure DetectiveState where
  selectedLocation : Option Coordinate
  description : String
  imageUri : String
  imageBase64 : String
  modalVisible : Bool
  loading : Bool
deriving DecidableEq, Repr

/-- Outcome of DetectiveScreen.submitReport up to the network call: with no
selected location the handler returns silently (no Alert, no network call);
otherwise the call is issued — the description is never validated. -/
inductive DetectiveOutcome where
  | noLocation
  | networkCall (payload : DetectiveReportPayload)
deriving DecidableEq, Repr

/-- The request body DetectiveScreen.submitReport sends. -/
def detectivePayload (s : DetectiveState) (loc : Coordinate) :
    DetectiveReportPayload :=
  { latitude := loc.latitude
    longitude := loc.longitude
    description := s.description
    problem_type := "OTHER"
    photo_base64 := s.imageBase64 }

/-- DetectiveScreen.submitReport up to the network call. -/
def detectiveSubmitAction (s : DetectiveState) : DetectiveOutcome :=
  match s.selectedLocation with
  | none => DetectiveOutcome.noLocation
  | some loc => DetectiveOutcome.networkCall (detectivePayload s loc)

/-- DetectiveScreen.submitReport including its effect on the component state,
parametrised by whether the API call succeeds.  Returns the end state, whether
fetchReports was triggered, and the body of the network call, if any.  On
success closeModal clears the modal, description and photo, then the selected
location is cleared and fetchReports re-fetches the report list; the catch
branch only shows an Alert; the finally branch resets loading. -/
def detectiveSubmit (apiOk : Bool) (s : DetectiveState) :
    DetectiveState × Bool × Option DetectiveReportPayload :=
  match detectiveSubmitAction s with
  | DetectiveOutcome.noLocation => (s, false, none)
  | DetectiveOutcome.networkCall p =>
      if apiOk then
        ({ s with modalVisible := false, description := "", imageUri := "",
                  imageBase64 := "", selectedLocation := none,
                  loading := false }, true, some p)
      else
        ({ s with loading := false }, false, some p)

/-- Body of POST auth/register/ built by RegisterScreen.handleRegister. -/
structure RegisterPayload where
  first_name : String
  last_name : String
  email : String
  username : String
  password : String
deriving DecidableEq, Repr

/-- JavaScript s.split(sep)[0] on a character list: the (possibly empty)
segment before the first occurrence of sep, the whole list when sep does not
occur. -/
def jsSplitFirstAux (sep : Char) : List Char → List Char
  | [] => []
  | c :: cs => if c = sep then [] else c :: jsSplitFirstAux sep cs

/-- JavaScript s.split(sep)[0]. -/
def jsSplitFirst (sep : Char) (s : String) : String :=
  String.mk (jsSplitFirstAux sep s.data)

/-- Stated from the spec wording for comparison with the code: the local-part
of an email address, "the text before the first at-sign" (the whole string
when it has no at-sign). -/
def localPartSpec (s : String) : String :=
  String.mk (s.data.takeWhile (fun c => c != '@'))

/-- RegisterScreen.handleRegister up to the network call: any required field
empty (first name, last name or email after trim; password as typed) is
rejected with an Alert before any network traffic; otherwise the register
body is posted, with the username derived from the email by
email.trim().toLowerCase().split(at-sign)[0]. -/
def handleRegisterAction (firstName lastName email password : String) :
    SubmitOutcome RegisterPayload :=
  if jsTrim firstName = "" ∨ jsTrim lastName = "" ∨ jsTrim email = "" ∨
      password = "" then
    SubmitOutcome.validationError "Tüm alanları doldurun."
  else
    SubmitOutcome.networkCall
      { first_name := jsTrim firstName
        last_name := jsTrim lastName
        email := jsToLower (jsTrim email)
        username := jsSplitFirst '@' (jsToLower (jsTrim email))
        password := password }

/-- The Authorization header of the ProfileScreen auth/me/ request as it goes
on the wire: the call site sets the header to the template string
"Bearer " followed by the interpolated userToken (so the text "null" when the
token is null), and the request then passes through the interceptor, which
may overwrite it from the store. -/
def profileFetchAuth (userToken : Option String) (store : Option String) :
    Option String :=
  interceptRequest store (some ("Bearer " ++ jsTemplateToken userToken))

/-- The Authorization header of the LeaderboardScreen auth/leaderboard/
request as it goes on the wire; built exactly like the profile fetch. -/
def leaderboardFetchAuth (userToken : Option String) (store : Option String) :
    Option String :=
  interceptRequest store (some ("Bearer " ++ jsTemplateToken userToken))

/-- A concrete HomeScreen state used to instantiate the theorems below. -/
def homeSample : HomeState :=
  { binId := "B1", wasteCategory := "PAPER", imageUri := none,
    imageBase64 := some "b64", loading := false }

/-- The request body the sample HomeScreen state produces. -/
def wasteSample : WasteReportPayload :=
  { bin := "B1", waste_category := "PAPER", verification_method := "QR",
    latitude := "36.8969", longitude := "30.6553",
    client_timestamp := "2025-01-01T00:00:00Z", photo_base64 := some "b64" }

/-- A concrete DetectiveScreen state with a selected location. -/
def detectiveSample : DetectiveState :=
  { selectedLocation := some { latitude := 37, longitude := 31 },
    description := "çöp yığını", imageUri := "u", imageBase64 := "img",
    modalVisible := true, loading := false }

/-- The register body produced from the sample registration inputs. -/
def regSample : RegisterPayload :=
  { first_name := "Levent", last_name := "Can", email := "ada@x.edu",
    username := "ada", password := "pw" }

theorem consistent_applyOp (s : SysState) (op : Op) :
    consistentState (applyOp s op) := by
  cases op <;> simp [applyOp, consistentState, initSession, login, logout,
    getItem, setItem, removeItem]

theorem consistent_runOps (ops : List Op) (s : SysState)
    (h : consistentState s) : consistentState (runOps ops s) := by
  induction ops generalizing s with
  | nil => exact h
  | cons op rest ih => exact ih (applyOp s op) (consistent_applyOp s op)

/-- Any reachable state that has settled (isLoading = false) has its cached
token equal to the persisted one. -/
theorem reachable_settled_consistent (s : SysState) (hr : Reachable s)
    (hl : s.auth.isLoading = false) : consistentState s := by
  obtain ⟨p, ops, rfl⟩ := hr
  cases ops with
  | nil => simp [runOps, startState] at hl
  | cons op rest =>
      exact consistent_runOps rest (applyOp (startState p) op)
        (consistent_applyOp (startState p) op)

/-- sessionView inversion: the authenticated case. -/
theorem sessionView_authenticated (a : AuthState) (t : String)
    (h : sessionView a = SessionView.authenticated t) :
    a.isLoading = false ∧ a.userToken = some t := by
  unfold sessionView at h
  by_cases hl : a.isLoading
  · simp [hl] at h
  · cases hu : a.userToken with
    | none => simp [hl, hu] at h
    | some u =>
        simp [hl, hu] at h
        simp [hl, hu, h]

/-- sessionView inversion: the unauthenticated case. -/
theorem sessionView_unauthenticated (a : AuthState)
    (h : sessionView a = SessionView.unauthenticated) :
    a.isLoading = false ∧ a.userToken = none := by
  unfold sessionView at h
  by_cases hl : a.isLoading
  · simp [hl] at h
  · cases hu : a.userToken with
    | none => exact ⟨by simpa using hl, rfl⟩
    | some u => simp [hl, hu] at h

theorem jsSplitFirstAux_eq_takeWhile (sep : Char) (l : List Char) :
    jsSplitFirstAux sep l = l.takeWhile (fun c => c != sep) := by
  induction l with
  | nil => rfl
  | cons c cs ih =>
      by_cases hc : c = sep <;>
        simp [jsSplitFirstAux, List.takeWhile_cons, hc, ih]

/-- The code-side split('@')[0] computes exactly the spec-side local part. -/
theorem jsSplitFirst_eq_localPart (s : String) :
    jsSplitFirst '@' s = localPartSpec s := by
  unfold jsSplitFirst localPartSpec
  rw [jsSplitFirstAux_eq_takeWhile]

/-- C1 (counterexample to the claim as stated): after login("") — a state
reachable by completed operations — the Session Context reports
authenticated("") (the empty token is non-null), yet the interceptor attaches
no bearer credential, because JavaScript truthiness drops the empty string. -/
theorem interceptor_drops_empty_token :
    Reachable (runOps [Op.init, Op.login ""] (startState none)) ∧
    sessionView (runOps [Op.init, Op.login ""] (startState none)).auth =
      SessionView.authenticated "" ∧
    interceptRequest (runOps [Op.init, Op.login ""] (startState none)).store
      none = none ∧
    (none : Option String) ≠ some ("Bearer " ++ "") := by
  exact ⟨⟨none, [Op.init, Op.login ""], rfl⟩, by decide, by decide, by decide⟩

/-- C1 (amended): the interceptor reads the token from the persisted Token
Store at request time; in every settled state reachable by completed
init/login/logout operations the cached and persisted tokens agree, so a call
issued while the Session Context is authenticated(t) with t non-empty carries
"Bearer " ++ t, whatever Authorization header its call site put in the
config; a call issued while it is unauthenticated carries exactly the header
its call site set — none for the plain apiClient calls, and the literal
"Bearer null" for the ProfileScreen and LeaderboardScreen fetches, which
interpolate the null token into an explicit header the interceptor then
leaves in place. -/
theorem interceptor_bearer_from_store (s : SysState) (hr : Reachable s)
    (a0 : Option String) :
    (∀ t, t ≠ "" → sessionView s.auth = SessionView.authenticated t →
        interceptRequest s.store a0 = some ("Bearer " ++ t)) ∧
    (sessionView s.auth = SessionView.unauthenticated →
        interceptRequest s.store a0 = a0 ∧
        profileFetchAuth s.auth.userToken s.store = some "Bearer null" ∧
        leaderboardFetchAuth s.auth.userToken s.store =
          some "Bearer null") := by
  constructor
  · intro t ht hv
    obtain ⟨hl, hu⟩ := sessionView_authenticated s.auth t hv
    have hc := reachable_settled_consistent s hr hl
    unfold consistentState at hc
    rw [hu] at hc
    simp [interceptRequest, getItem, hc, ht]
  · intro hv
    obtain ⟨hl, hu⟩ := sessionView_unauthenticated s.auth hv
    have hc := reachable_settled_consistent s hr hl
    unfold consistentState at hc
    rw [hu] at hc
    refine ⟨by simp [interceptRequest, getItem, hc], ?_, ?_⟩
    · unfold profileFetchAuth interceptRequest getItem
      rw [hc, hu]
      rfl
    · unfold leaderboardFetchAuth interceptRequest getItem
      rw [hc, hu]
      rfl

/-- C1 witness: after init then login("tok123") the interceptor overwrites
even a call-site header of "Bearer null" with the stored token; in the
settled logged-out state reached by init from an empty store, a plain call
carries no header while the profile fetch carries the literal "Bearer
null". -/
theorem interceptor_bearer_from_store_witness :
    interceptRequest
      (runOps [Op.init, Op.login "tok123"] (startState none)).store
      (some "Bearer null") = some ("Bearer " ++ "tok123") ∧
    interceptRequest (runOps [Op.init] (startState none)).store none = none ∧
    profileFetchAuth (runOps [Op.init] (startState none)).auth.userToken
      (runOps [Op.init] (startState none)).store = some "Bearer null" := by
  refine ⟨?_, ?_, ?_⟩
  · exact (interceptor_bearer_from_store
        (runOps [Op.init, Op.login "tok123"] (startState none))
        ⟨none, [Op.init, Op.login "tok123"], rfl⟩ (some "Bearer null")).1
      "tok123" (by decide) (by decide)
  · exact ((interceptor_bearer_from_store (runOps [Op.init] (startState none))
        ⟨none, [Op.init], rfl⟩ none).2 (by decide)).1
  · exact ((interceptor_bearer_from_store (runOps [Op.init] (startState none))
        ⟨none, [Op.init], rfl⟩ none).2 (by decide)).2.1

/-- C2: after login(t) completes successfully, a read of the persisted token
store returns t, and the Session Context (once the initial load has settled)
reports authenticated(t). -/
theorem login_persists_token (s : SysState) (t : String)
    (h : s.auth.isLoading = false) :
    getItem (login t s).store = some t ∧
    sessionView (login t s).auth = SessionView.authenticated t := by
  refine ⟨rfl, ?_⟩
  simp [login, sessionView, h]

/-- C2 witness at the settled logged-out state and the token "tok123". -/
theorem login_persists_token_witness :
    getItem (login "tok123" ⟨none, ⟨none, false⟩⟩).store = some "tok123" ∧
    sessionView (login "tok123" ⟨none, ⟨none, false⟩⟩).auth =
      SessionView.authenticated "tok123" :=
  login_persists_token ⟨none, ⟨none, false⟩⟩ "tok123" rfl

/-- C3: if the AsyncStorage write inside login fails, the awaited promise
rejects before setUserToken runs, so the in-memory Session Context state after
the failed call equals its state before the call. -/
theorem login_failure_leaves_session (s s1 : SysState) (t : String)
    (ok : Bool) (h : loginRun ok t s = Except.error s1) :
    s1.auth = s.auth := by
  cases ok with
  | true => simp [loginRun] at h
  | false =>
      simp [loginRun] at h
      rw [← h]

/-- C3 witness: a failing login("new") from an authenticated state leaves the
in-memory state exactly as it was. -/
theorem login_failure_leaves_session_witness :
    loginRun false "new" ⟨some "old", ⟨some "old", false⟩⟩ =
      Except.error ⟨some "old", ⟨some "old", false⟩⟩ ∧
    (⟨some "old", ⟨some "old", false⟩⟩ : SysState).auth =
      (⟨some "old", ⟨some "old", false⟩⟩ : SysState).auth :=
  ⟨rfl, login_failure_leaves_session _ _ "new" false rfl⟩

/-- C4: after logout() completes the token store reads absent and the Session
Context (once settled) reports unauthenticated, and logout is idempotent on
the whole system state. -/
theorem logout_clears_and_idempotent (s : SysState)
    (h : s.auth.isLoading = false) :
    getItem (logout s).store = none ∧
    sessionView (logout s).auth = SessionView.unauthenticated ∧
    logout (logout s) = logout s := by
  refine ⟨rfl, ?_, rfl⟩
  simp [logout, sessionView, h]

/-- C4 witness at a settled authenticated state. -/
theorem logout_clears_and_idempotent_witness :
    getItem (logout ⟨some "tok", ⟨some "tok", false⟩⟩).store = none ∧
    sessionView (logout ⟨some "tok", ⟨some "tok", false⟩⟩).auth =
      SessionView.unauthenticated ∧
    logout (logout ⟨some "tok", ⟨some "tok", false⟩⟩) =
      logout ⟨some "tok", ⟨some "tok", false⟩⟩ :=
  logout_clears_and_idempotent ⟨some "tok", ⟨some "tok", false⟩⟩ rfl

/-- C5: along every sequence of completed init/login/logout operations from
every process start, the state consumers observe is one of exactly the three
values loading, authenticated(token), unauthenticated. -/
theorem session_view_trichotomy (persisted : Option String) (ops : List Op) :
    sessionView (runOps ops (startState persisted)).auth =
        SessionView.loading ∨
    (∃ t, sessionView (runOps ops (startState persisted)).auth =
        SessionView.authenticated t) ∨
    sessionView (runOps ops (startState persisted)).auth =
      SessionView.unauthenticated := by
  cases h : sessionView (runOps ops (startState persisted)).auth with
  | loading => exact Or.inl rfl
  | authenticated t => exact Or.inr (Or.inl ⟨t, rfl⟩)
  | unauthenticated => exact Or.inr (Or.inr rfl)

/-- C6 (counterexample to the claim as stated): a Detective submission with a
selected location and an empty description is not rejected; it issues a
network call carrying the empty description. -/
theorem detective_empty_description_submits :
    detectiveSubmitAction
      { selectedLocation := some { latitude := 37, longitude := 31 },
        description := "", imageUri := "", imageBase64 := "",
        modalVisible := true, loading := false } =
    DetectiveOutcome.networkCall
      { latitude := 37, longitude := 31, description := "",
        problem_type := "OTHER", photo_base64 := "" } := rfl

/-- C6 (amended): the Home flow rejects an empty (after trim) bin identifier
locally with a validation message and issues no network call; the Detective
flow performs no description validation — it only returns silently, without a
network call, when no location is selected, and otherwise submits whatever
description is present, including the empty one. -/
theorem local_validation_before_network (hs : HomeState) (now : String)
    (d : DetectiveState) (hb : jsTrim hs.binId = "")
    (hd : d.selectedLocation = none) :
    homeSubmitAction hs now =
      SubmitOutcome.validationError "Lütfen kutu ID girin." ∧
    detectiveSubmitAction d = DetectiveOutcome.noLocation ∧
    (∀ d2 : DetectiveState, ∀ p, detectiveSubmitAction d2 =
        DetectiveOutcome.networkCall p → p.description = d2.description) := by
  refine ⟨by simp [homeSubmitAction, hb],
    by simp [detectiveSubmitAction, hd], ?_⟩
  intro d2 p hp
  unfold detectiveSubmitAction at hp
  cases hl : d2.selectedLocation with
  | none => rw [hl] at hp; exact DetectiveOutcome.noConfusion hp
  | some loc =>
      rw [hl] at hp
      injection hp with h2
      rw [← h2]
      rfl

/-- C6 witness: an all-empty Home draft is rejected locally, and a Detective
submit with no selected location returns without a network call. -/
theorem local_validation_before_network_witness :
    homeSubmitAction ⟨"", "PLASTIC", none, none, false⟩ "2025-01-01" =
      SubmitOutcome.validationError "Lütfen kutu ID girin." ∧
    detectiveSubmitAction ⟨none, "desc", "", "", false, false⟩ =
      DetectiveOutcome.noLocation := by
  have h := local_validation_before_network ⟨"", "PLASTIC", none, none, false⟩
    "2025-01-01" ⟨none, "desc", "", "", false, false⟩ (by decide) rfl
  exact ⟨h.1, h.2.1⟩

/-- C7 (counterexample to the claim as stated): after a successful Home
submission the bin identifier and photo are cleared, but the waste-category
draft field keeps its pre-call value "GLASS" — it is neither emptied nor reset
to the initial "PLASTIC", so the draft is not cleared in full. -/
theorem home_success_keeps_waste_category :
    (homeSubmit true "2025-01-01T00:00:00Z"
        { binId := "B1", wasteCategory := "GLASS", imageUri := none,
          imageBase64 := none, loading := false }).1 =
      { binId := "", wasteCategory := "GLASS", imageUri := none,
        imageBase64 := none, loading := false } ∧
    ("GLASS" : String) ≠ "PLASTIC" ∧ ("GLASS" : String) ≠ "" := by
  exact ⟨by decide, by decide, by decide⟩

/-- C7 (amended): on API failure both flows leave every draft field unchanged
(only the loading flag is reset); on success the Home flow clears the bin
identifier and photo but leaves the waste-category selection unchanged, and
the Detective flow clears the location, description and photo and triggers a
re-fetch of the report list. -/
theorem submit_frame_conditions (now : String) (hs : HomeState)
    (d : DetectiveState) (hb : ¬ jsTrim hs.binId = "") (loc : Coordinate)
    (hl : d.selectedLocation = some loc) :
    (homeSubmit false now hs).1 = { hs with loading := false } ∧
    (homeSubmit true now hs).1 =
      { hs with binId := "", imageUri := none, imageBase64 := none,
                loading := false } ∧
    (detectiveSubmit false d).1 = { d with loading := false } ∧
    (detectiveSubmit true d).1 =
      { d with modalVisible := false, description := "", imageUri := "",
               imageBase64 := "", selectedLocation := none,
               loading := false } ∧
    (detectiveSubmit true d).2.1 = true := by
  refine ⟨?_, ?_, ?_, ?_, ?_⟩ <;>
    simp [homeSubmit, homeSubmitAction, hb, detectiveSubmit,
      detectiveSubmitAction, hl]

/-- C7 witness at concrete Home and Detective drafts. -/
theorem submit_frame_conditions_witness :
    (homeSubmit false "t0" homeSample).1 = { homeSample with loading := false } ∧
    (homeSubmit true "t0" homeSample).1 =
      { homeSample with binId := "", imageUri := none, imageBase64 := none,
                        loading := false } ∧
    (detectiveSubmit false detectiveSample).1 =
      { detectiveSample with loading := false } ∧
    (detectiveSubmit true detectiveSample).1 =
      { detectiveSample with modalVisible := false, description := "",
                             imageUri := "", imageBase64 := "",
                             selectedLocation := none, loading := false } ∧
    (detectiveSubmit true detectiveSample).2.1 = true :=
  submit_frame_conditions "t0" homeSample detectiveSample (by decide)
    { latitude := 37, longitude := 31 } rfl

/-- C8: whenever RegisterScreen issues the register request, its username
field is the local-part (the text before the first at-sign) of the trimmed,
lowercased email, alongside the trimmed names, the trimmed lowercased email
and the password as typed. -/
theorem register_username_is_local_part
    (firstName lastName email password : String) (p : RegisterPayload)
    (h : handleRegisterAction firstName lastName email password =
        SubmitOutcome.networkCall p) :
    p.username = localPartSpec (jsToLower (jsTrim email)) ∧
    p.first_name = jsTrim firstName ∧ p.last_name = jsTrim lastName ∧
    p.email = jsToLower (jsTrim email) ∧ p.password = password := by
  unfold handleRegisterAction at h
  by_cases hc : jsTrim firstName = "" ∨ jsTrim lastName = "" ∨
      jsTrim email = "" ∨ password = ""
  · rw [if_pos hc] at h
    exact SubmitOutcome.noConfusion h
  · rw [if_neg hc] at h
    injection h with h2
    rw [← h2]
    exact ⟨jsSplitFirst_eq_localPart _, rfl, rfl, rfl, rfl⟩

/-- C8 witness: registering with email "Ada@X.edu" posts username "ada". -/
theorem register_username_is_local_part_witness :
    handleRegisterAction "Levent" "Can" "Ada@X.edu" "pw" =
      SubmitOutcome.networkCall regSample ∧
    (regSample.username = localPartSpec (jsToLower (jsTrim "Ada@X.edu")) ∧
     regSample.first_name = jsTrim "Levent" ∧
     regSample.last_name = jsTrim "Can" ∧
     regSample.email = jsToLower (jsTrim "Ada@X.edu") ∧
     regSample.password = "pw") := by
  have h : handleRegisterAction "Levent" "Can" "Ada@X.edu" "pw" =
      SubmitOutcome.networkCall regSample := by decide
  exact ⟨h, register_username_is_local_part "Levent" "Can" "Ada@X.edu" "pw"
    regSample h⟩

/-- C9: in a settled reachable state whose in-memory token is null, the
profile and leaderboard fetches put the literal header value "Bearer null" on
the wire (template interpolation of the null token), and the interceptor —
the store also being empty in such a state — leaves it in place rather than
omitting the header. -/
theorem absent_token_bearer_null (s : SysState) (hr : Reachable s)
    (hl : s.auth.isLoading = false) (hu : s.auth.userToken = none) :
    profileFetchAuth s.auth.userToken s.store = some "Bearer null" ∧
    leaderboardFetchAuth s.auth.userToken s.store = some "Bearer null" := by
  have hc := reachable_settled_consistent s hr hl
  unfold consistentState at hc
  rw [hu] at hc
  constructor
  · unfold profileFetchAuth interceptRequest getItem
    rw [hc, hu]
    rfl
  · unfold leaderboardFetchAuth interceptRequest getItem
    rw [hc, hu]
    rfl

/-- C9 witness at the settled logged-out state reached by init from an empty
store. -/
theorem absent_token_bearer_null_witness :
    profileFetchAuth none none = some "Bearer null" ∧
    leaderboardFetchAuth none none = some "Bearer null" :=
  absent_token_bearer_null (runOps [Op.init] (startState none))
    ⟨none, [Op.init], rfl⟩ rfl rfl

/-- C10: every waste report the Home screen actually submits carries the
constant latitude "36.8969", longitude "30.6553" and verification_method
"QR"; the bin identifier, waste category, timestamp and optional photo are
exactly the draft and clock inputs. -/
theorem home_report_constant_fields (s : HomeState) (now : String)
    (p : WasteReportPayload)
    (h : homeSubmitAction s now = SubmitOutcome.networkCall p) :
    p.latitude = "36.8969" ∧ p.longitude = "30.6553" ∧
    p.verification_method = "QR" ∧ p.bin = jsTrim s.binId ∧
    p.waste_category = s.wasteCategory ∧ p.client_timestamp = now ∧
    p.photo_base64 = s.imageBase64 := by
  unfold homeSubmitAction at h
  by_cases hb : jsTrim s.binId = ""
  · rw [if_pos hb] at h
    exact SubmitOutcome.noConfusion h
  · rw [if_neg hb] at h
    injection h with h2
    rw [← h2]
    exact ⟨rfl, rfl, rfl, rfl, rfl, rfl, rfl⟩

/-- C10 witness at a concrete Home draft. -/
theorem home_report_constant_fields_witness :
    homeSubmitAction homeSample "2025-01-01T00:00:00Z" =
      SubmitOutcome.networkCall wasteSample ∧
    (wasteSample.latitude = "36.8969" ∧ wasteSample.longitude = "30.6553" ∧
     wasteSample.verification_method = "QR" ∧
     wasteSample.bin = jsTrim homeSample.binId ∧
     wasteSample.waste_category = homeSample.wasteCategory ∧
     wasteSample.client_timestamp = "2025-01-01T00:00:00Z" ∧
     wasteSample.photo_base64 = homeSample.imageBase64) := by
  have h : homeSubmitAction homeSample "2025-01-01T00:00:00Z" =
      SubmitOutcome.networkCall wasteSample := by decide
  exact ⟨h, home_report_constant_fields homeSample "2025-01-01T00:00:00Z"
    wasteSample h⟩

end EkoKampus
